import Mathlib

/-!
Shallow embedding of the data-retrieval & provenance engine of the hypoAI
repository, as implemented (in duplicated form) by the SEER adapter
(`apps/mcp-tools/seer/src/seer-client.ts`) and the PhysioNet adapter
(`apps/mcp-tools/physionet/src/index.ts`, class `PhysioNetClient`).

Modelling conventions:
- JS objects holding row data become association lists `List (String × Value)`
  whose order mirrors JS insertion order.
- `Math.random()` is modelled as an explicit stream of draws (`RState`):
  each call consumes the next value of the stream.  `Math.floor(r*n)+k` and
  `arr[Math.floor(r*len)]` become `d % n + k` and `arr[d % len]`; the
  `toFixed` string formatting of rate fields is abstracted to the numeric
  draw (no claim inspects the formatted text).
- `crypto.createHash('sha256'|'md5')....digest('hex')` are abstracted as
  injective tagged encodings of their input string (the hash internals live
  outside the repository).
- The filesystem cache and HTTP transport are oracles passed as arguments
  (`Option` for a cache hit, a `TransportOutcome` for the live request).
- Fallible TypeScript paths (`throw` caught at the pipeline boundary)
  become `Except String` or direct construction of the error result, as in
  the source.
-/

/-- Scalar (or array) cell value of a result row, mirroring the
`string | number | null | string[]` values the adapters place in rows. -/
inductive Value where
  | str (s : String)
  | num (n : Int)
  | nullv
  | arr (ss : List String)
deriving DecidableEq, Repr

/-- A result row: JS object as insertion-ordered association list. -/
abbrev Row := List (String × Value)

/-- A fetched row-set. -/
abbrev RowSet := List Row

/-- JSON.stringify of a single value (string escaping elided: no modelled
string contains a quote). -/
def jsonValue : Value → String
  | .str s => "\x22" ++ s ++ "\x22"
  | .num n => toString n
  | .nullv => "null"
  | .arr ss => "[" ++ String.intercalate "," (ss.map fun s => "\x22" ++ s ++ "\x22") ++ "]"

/-- JSON.stringify of a row (object). -/
def jsonRow (r : Row) : String :=
  "\x7b" ++ String.intercalate "," (r.map fun kv => "\x22" ++ kv.1 ++ "\x22:" ++ jsonValue kv.2) ++ "\x7d"

/-- JSON.stringify of a row-set (array of objects); this is the
serialization the adapters hash. -/
def jsonRows (rs : RowSet) : String :=
  "[" ++ String.intercalate "," (rs.map jsonRow) ++ "]"

/-- Model of node crypto sha-256 hex digest, abstracted as an injective
tagged encoding of the hashed string. -/
def sha256Hex (s : String) : String := "sha256:" ++ s

/-- Model of node crypto md5 hex digest, abstracted as an injective tagged
encoding of the hashed string. -/
def md5Hex (s : String) : String := "md5:" ++ s

/-- JavaScript `Array.prototype.slice(start, stop)` on lists, including the
negative-index and clamping semantics. -/
def jsSlice (l : List α) (start stop : Int) : List α :=
  let len : Int := l.length
  let s : Int := if start < 0 then max (len + start) 0 else min start len
  let e : Int := if stop < 0 then max (len + stop) 0 else min stop len
  (l.take e.toNat).drop s.toNat

/-- Substring test on character lists (JS `String.prototype.includes`). -/
def containsSub : List Char → List Char → Bool
  | hay, needle =>
    if needle.isPrefixOf hay then true
    else match hay with
      | [] => false
      | _ :: t => containsSub t needle

/-- JS `hay.includes(needle)`. -/
def strIncludes (hay needle : String) : Bool :=
  containsSub hay.toList needle.toList

namespace Seer

/-- A SEER query parameter value: scalar string or array of strings
(`string | string[]` in the source's parameter map). -/
inductive PValue where
  | pstr (s : String)
  | parr (ss : List String)
deriving DecidableEq, Repr

/-- JS truthiness of a parameter value: the empty string is falsy, arrays
are always truthy. -/
def pvalueFalsy : PValue → Bool
  | .pstr s => s = ""
  | .parr _ => false

/-- Row-cell view of a parameter value (as stored into mock records). -/
def pvalueCell : PValue → Value
  | .pstr s => .str s
  | .parr ss => .arr ss

/-- URL rendering of a parameter value: arrays joined with a comma
(`value.join(',')`), scalars via `String(value)`. -/
def pvalueUrl : PValue → String
  | .pstr s => s
  | .parr ss => String.intercalate "," ss

/-- Raw `SeerQuery` before normalization; absent optional fields are
`none`. -/
structure SeerQuery where
  endpoint : String
  params : Option (List (String × PValue))
  limit : Option Int
  offset : Option Int
  dry_run : Option Bool
deriving DecidableEq, Repr

/-- Normalized query (`Required<SeerQuery>`). -/
structure SeerQueryN where
  endpoint : String
  params : List (String × PValue)
  limit : Int
  offset : Int
  dry_run : Bool
deriving DecidableEq, Repr

/-- `SeerClient.normalizeQuery`: `params || {}`, `limit || 10000`,
`offset || 0`, `dry_run ?? false`.  The `||` defaults apply to the JS falsy
values, so an explicit `0` is replaced by the default as well. -/
def normalizeQuery (q : SeerQuery) : SeerQueryN where
  endpoint := q.endpoint
  params := q.params.getD []
  limit := match q.limit with
    | none => 10000
    | some v => if v = 0 then 10000 else v
  offset := match q.offset with
    | none => 0
    | some v => if v = 0 then 0 else v
  dry_run := q.dry_run.getD false

/-- Catalog entry of the SEER endpoint registry (fields the pipeline
reads: name, required parameter names, description). -/
structure SeerEndpoint where
  name : String
  required_params : List String
  description : String
deriving DecidableEq, Repr

/-- The static endpoint set written by `getAvailableEndpoints`. -/
def seerEndpoints : List SeerEndpoint :=
  [ { name := "incidence"
      required_params := ["site"]
      description := "Cancer incidence data by various demographics and tumor characteristics" }
  , { name := "mortality"
      required_params := ["site"]
      description := "Cancer mortality data by demographics" }
  , { name := "survival"
      required_params := ["site"]
      description := "Cancer survival statistics" }
  , { name := "population"
      required_params := ["year"]
      description := "Population statistics for incidence rate calculations" } ]

/-- Endpoint lookup (`endpoints.find(ep => ep.name === ...)`). -/
def findEndpoint (name : String) : Option SeerEndpoint :=
  seerEndpoints.find? fun ep => ep.name = name

/-- Keys of `getDataDictionary().sites` in insertion order. -/
def siteKeys : List String := ["breast", "lung", "prostate", "colorectal", "melanoma"]

/-- Keys of `getDataDictionary().stages` in insertion order. -/
def stageKeys : List String := ["localized", "regional", "distant", "unknown"]

/-- Keys of `getDataDictionary().race_ethnicity` in insertion order. -/
def raceKeys : List String := ["white", "black", "asian", "hispanic", "other"]

/-- State of the global pseudo-random source: the stream of draws
`Math.random()` produces, plus the index of the next draw. -/
structure RState where
  stream : Nat → Nat
  idx : Nat

/-- One call of `Math.random()`: consume the next draw. -/
def rdraw (s : RState) : Nat × RState :=
  (s.stream s.idx, ⟨s.stream, s.idx + 1⟩)

/-- `getRandomFromArray(arr)`: `arr[Math.floor(Math.random() * arr.length)]`. -/
def randFrom (choices : List String) (s : RState) : Value × RState :=
  let d := rdraw s
  (.str (choices.getD (d.1 % choices.length) ""), d.2)

/-- `Math.floor(Math.random() * m) + add` (also standing in for the
`(Math.random() * m).toFixed(_)` rate fields, with the string formatting
abstracted away). -/
def randNat (m add : Nat) (s : RState) : Value × RState :=
  let d := rdraw s
  (.num (Int.ofNat (d.1 % m + add)), d.2)

/-- `query.params.key || fallback`: use the supplied parameter when present
and truthy, otherwise evaluate the fallback (which may consume draws). -/
def paramOr (q : SeerQueryN) (key : String) (fallback : RState → Value × RState)
    (s : RState) : Value × RState :=
  match q.params.lookup key with
  | some v => if pvalueFalsy v then fallback s else (pvalueCell v, s)
  | none => fallback s

/-- Endpoint-specific fields that `generateMockData` assigns onto the base
record (the `switch (query.endpoint)` body), in JS insertion order. -/
def mkFields (q : SeerQueryN) (s : RState) : Row × RState :=
  match q.endpoint with
  | "incidence" =>
    let site := paramOr q "site" (randFrom siteKeys) s
    let age := paramOr q "age_group" (randFrom ["20-49", "50-64", "65+"]) site.2
    let sex := paramOr q "sex" (randFrom ["male", "female"]) age.2
    let race := paramOr q "race" (randFrom raceKeys) sex.2
    let stage := paramOr q "stage" (randFrom stageKeys) race.2
    let cases := randNat 1000 1 stage.2
    let pop := randNat 100000 10000 cases.2
    let rate := randNat 100 0 pop.2
    let lci := randNat 50 0 rate.2
    let uci := randNat 50 50 lci.2
    ([("site", site.1), ("age_group", age.1), ("sex", sex.1), ("race", race.1),
      ("stage", stage.1), ("cases", cases.1), ("population", pop.1),
      ("rate", rate.1), ("lower_ci", lci.1), ("upper_ci", uci.1)], uci.2)
  | "mortality" =>
    let site := paramOr q "site" (randFrom siteKeys) s
    let age := paramOr q "age_group" (randFrom ["20-49", "50-64", "65+"]) site.2
    let sex := paramOr q "sex" (randFrom ["male", "female"]) age.2
    let race := paramOr q "race" (randFrom raceKeys) sex.2
    let deaths := randNat 500 1 race.2
    let pop := randNat 100000 10000 deaths.2
    let rate := randNat 50 0 pop.2
    let lci := randNat 25 0 rate.2
    let uci := randNat 25 25 lci.2
    ([("site", site.1), ("age_group", age.1), ("sex", sex.1), ("race", race.1),
      ("deaths", deaths.1), ("population", pop.1), ("rate", rate.1),
      ("lower_ci", lci.1), ("upper_ci", uci.1)], uci.2)
  | "survival" =>
    let site := paramOr q "site" (randFrom siteKeys) s
    let stage := paramOr q "stage" (randFrom stageKeys) site.2
    let years := paramOr q "years" (fun st => (.str "5", st)) stage.2
    let srate := randNat 100 0 years.2
    let serr := randNat 5 0 srate.2
    let cases := randNat 10000 100 serr.2
    ([("site", site.1), ("stage", stage.1), ("years", years.1),
      ("survival_rate", srate.1), ("standard_error", serr.1),
      ("cases", cases.1)], cases.2)
  | "population" =>
    let age := paramOr q "age_group" (randFrom ["20-49", "50-64", "65+"]) s
    let sex := paramOr q "sex" (randFrom ["male", "female"]) age.2
    let race := paramOr q "race" (randFrom raceKeys) sex.2
    let pop := randNat 1000000 100000 race.2
    ([("age_group", age.1), ("sex", sex.1), ("race", race.1),
      ("population", pop.1)], pop.2)
  | _ => ([], s)

/-- One mock record: base `{record_id: i + 1, year: random}` followed by
the endpoint-specific fields. -/
def mkRecord (q : SeerQueryN) (i : Nat) (s : RState) : Row × RState :=
  let yr := randFrom ["2018", "2019", "2020", "2021"] s
  let rest := mkFields q yr.2
  (("record_id", .num (Int.ofNat i + 1)) :: ("year", yr.1) :: rest.1, rest.2)

/-- The generation loop of `generateMockData`: `n` more records starting at
index `i`, threading the pseudo-random state. -/
def genRows (q : SeerQueryN) : Nat → Nat → RState → RowSet × RState
  | 0, _, s => ([], s)
  | n + 1, i, s =>
    let r := mkRecord q i s
    let rest := genRows q n (i + 1) r.2
    (r.1 :: rest.1, rest.2)

/-- `SeerClient.generateMockData`: `sampleSize = Math.min(query.limit, 1000)`
records drawn from the global pseudo-random source. -/
def generateMockData (q : SeerQueryN) (s : RState) : RowSet × RState :=
  genRows q (min q.limit 1000).toNat 0 s

/-- Outcome of the live HTTP request issued by `fetchData` (response body
already decoded to rows, or a thrown transport/parse failure). -/
inductive TransportOutcome where
  | ok (rows : RowSet)
  | failure (msg : String)

/-- The request URL built by `fetchData`: base + endpoint, followed by the
parameter map in insertion order (arrays joined with commas) and the
optional api key.  URL-encoding is elided (no modelled value needs it). -/
def seerUrl (q : SeerQueryN) (apiKey : Option String) : String :=
  let base := "https://seer.cancer.gov/rest/" ++ q.endpoint
  let ps := q.params.map fun kv => kv.1 ++ "=" ++ pvalueUrl kv.2
  let ps := match apiKey with
    | some k => ps ++ ["api_key=" ++ k]
    | none => ps
  match ps with
  | [] => base
  | _ => base ++ "?" ++ String.intercalate "&" ps

/-- The cache digest of `fetchData`:
`crypto.createHash('md5').update(url.toString()).digest('hex')`. -/
def seerCacheKey (q : SeerQueryN) (apiKey : Option String) : String :=
  md5Hex (seerUrl q apiKey)

/-- The cache digest as computed inside a client whose dataset version
string is `version`: the key derivation of the source never reads the
version (it hashes only the request URL), so the parameter is unused. -/
def seerCacheKeyV (q : SeerQueryN) (apiKey : Option String) (version : String) : String :=
  seerCacheKey q apiKey

/-- `SeerClient.fetchData`: mock mode generates synthetic rows; otherwise a
fresh cache entry is served; otherwise the live request runs and any
transport or parse failure falls back to the synthetic generator. -/
def fetchData (mockMode : Bool) (cache : Option RowSet) (transport : TransportOutcome)
    (q : SeerQueryN) (s : RState) : RowSet :=
  if mockMode then (generateMockData q s).1
  else match cache with
    | some rows => rows
    | none =>
      match transport with
      | .ok rows => rows
      | .failure _ => (generateMockData q s).1

/-- `SeerClient.applyPagination`: `data.slice(offset, offset + limit)`. -/
def applyPagination (data : RowSet) (q : SeerQueryN) : RowSet :=
  jsSlice data q.offset (q.offset + q.limit)

/-- `SeerClient.estimateRows`; the float multiplier
`Math.max(0.1, 1 - filterCount * 0.2)` is modelled exactly in tenths. -/
def estimateRows (q : SeerQueryN) : Nat :=
  let base : Nat :=
    if q.endpoint = "incidence" then 50000
    else if q.endpoint = "mortality" then 25000
    else if q.endpoint = "survival" then 10000
    else if q.endpoint = "population" then 100000
    else 10000
  let mult10 : Nat := max 1 (10 - 2 * q.params.length)
  base * mult10 / 10

/-- Provenance record attached to every SEER result.  The echoed
`request_params` object is elided from the model (no claim reads it). -/
structure SeerProvenance where
  source : String
  dataset : String
  version : String
  date : String
  license : String
  request_timestamp : String
  sha256_hash : Option String
deriving DecidableEq, Repr

/-- The `SeerResult` response shape. -/
structure SeerResult where
  data : Option RowSet
  estimated_rows : Option Nat
  actual_rows : Option Nat
  provenance : SeerProvenance
  columns : List String
  warnings : Option (List String)
  errors : Option (List String)
deriving DecidableEq, Repr

/-- The dataset version string the client stamps on successful results. -/
def seerVersion : String := "November 2021"

/-- `SeerClient.createResult`: dry-run/actual branching, column list from
the first row, sha-256 hash over the serialized row-set, empty-data
warning. -/
def createResult (data : RowSet) (totalRows : Nat) (q : SeerQueryN)
    (requestTime : String) (ep : SeerEndpoint) : SeerResult where
  data := if q.dry_run then none else some data
  estimated_rows := if q.dry_run then some totalRows else none
  actual_rows := if q.dry_run then none else some data.length
  provenance :=
    { source := "SEER"
      dataset := q.endpoint ++ " (" ++ ep.description ++ ")"
      version := seerVersion
      date := "2021-11-15"
      license := "Public Domain (U.S. Government)"
      request_timestamp := requestTime
      sha256_hash := some (sha256Hex (jsonRows data)) }
  columns := match data with
    | [] => []
    | r :: _ => r.map Prod.fst
  warnings := if data.length = 0 then some ["No data found matching the specified criteria"] else none
  errors := none

/-- `SeerClient.createErrorResult`: sentinel provenance, no counts, no
data, singleton errors array. -/
def createErrorResult (requestTime : String) (error : String) : SeerResult where
  data := none
  estimated_rows := none
  actual_rows := none
  provenance :=
    { source := "SEER"
      dataset := "N/A"
      version := "N/A"
      date := "N/A"
      license := "Public Domain (U.S. Government)"
      request_timestamp := requestTime
      sha256_hash := none }
  columns := []
  warnings := none
  errors := some [error]

/-- `SeerClient.query`: the full pipeline — normalize, endpoint lookup,
required-parameter check, dry-run estimate or fetch + paginate, assemble;
thrown errors are caught at the boundary into an error result. -/
def seerQuery (mockMode : Bool) (cache : Option RowSet) (transport : TransportOutcome)
    (s : RState) (q : SeerQuery) (requestTime : String) : SeerResult :=
  let nq := normalizeQuery q
  match findEndpoint nq.endpoint with
  | none => createErrorResult requestTime ("Unknown endpoint: " ++ nq.endpoint)
  | some ep =>
    let missing := ep.required_params.filter fun p => (nq.params.lookup p).isNone
    if missing.isEmpty = false then
      createErrorResult requestTime
        ("Missing required parameters: " ++ String.intercalate ", " missing)
    else if nq.dry_run then
      createResult [] (estimateRows nq) nq requestTime ep
    else
      let rawData := fetchData mockMode cache transport nq s
      let paginated := applyPagination rawData nq
      createResult paginated rawData.length nq requestTime ep

end Seer

namespace PhysioNet

/-- Column metadata of a PhysioNet file (fields the pipeline reads). -/
structure PFile where
  name : String
  format : String
  sample_count : Option Nat
deriving DecidableEq, Repr

/-- PhysioNet dataset descriptor (fields the pipeline reads). -/
structure PDataset where
  id : String
  title : String
  description : String
  category : String
  publication_date : String
  version : String
  license : String
  files : List PFile
  tags : List String
  allowlisted : Bool
deriving DecidableEq, Repr

/-- The allowlist of `PhysioNetClient`'s constructor. -/
def physioAllowlist : List String :=
  ["mitdb", "ptbdb", "eegmmidb", "apnea-ecg", "challenge-2017", "mimic-cxr-jpg", "chbmit"]

/-- `PhysioNetClient.generateSampleDatasets`: the static sample catalog. -/
def sampleDatasets : List PDataset :=
  [ { id := "mitdb"
      title := "MIT-BIH Arrhythmia Database"
      description := "A collection of 48 half-hour excerpts of two-channel ambulatory ECG recordings, obtained from 47 subjects studied by the BIH Arrhythmia Laboratory."
      category := "ecg"
      publication_date := "2001-06-05"
      version := "1.0.0"
      license := "Open Data Commons Attribution License v1.0"
      files := [ { name := "100.dat", format := "binary", sample_count := some 650000 }
               , { name := "100.atr", format := "annotation", sample_count := some 2273 } ]
      tags := ["ecg", "arrhythmia", "annotation", "ambulatory"]
      allowlisted := true }
  , { id := "ptbdb"
      title := "PTB Diagnostic ECG Database"
      description := "A collection of 549 records from 290 subjects, with 15 simultaneously measured signals: the conventional 12 leads plus the 3 Frank lead ECGs."
      category := "ecg"
      publication_date := "2004-07-13"
      version := "1.0.0"
      license := "Open Data Commons Attribution License v1.0"
      files := [ { name := "s0010_re.dat", format := "binary", sample_count := some 115000 } ]
      tags := ["ecg", "diagnostic", "ptb", "12-lead", "frank-leads"]
      allowlisted := true }
  , { id := "eegmmidb"
      title := "EEG Motor Movement/Imagery Dataset"
      description := "A dataset of EEG recordings from 109 volunteers performing motor movement and motor imagery tasks."
      category := "eeg"
      publication_date := "2004-08-18"
      version := "1.0.0"
      license := "Open Data Commons Attribution License v1.0"
      files := [ { name := "S001R01.edf", format := "edf", sample_count := some 19200 } ]
      tags := ["eeg", "motor-imagery", "bci", "movement"]
      allowlisted := true }
  , { id := "apnea-ecg"
      title := "Apnea-ECG Database"
      description := "A collection of 70 ECG recordings that have been used in the Computers in Cardiology Challenge 2000."
      category := "ecg"
      publication_date := "2000-09-14"
      version := "1.0.0"
      license := "Open Data Commons Attribution License v1.0"
      files := [ { name := "a01.dat", format := "binary", sample_count := some 2880000 }
               , { name := "a01.apn", format := "annotation", sample_count := some 480 } ]
      tags := ["ecg", "apnea", "sleep", "annotation"]
      allowlisted := true } ]

/-- Raw catalog query (absent optional fields are `none`). -/
structure CatalogQuery where
  query : Option String
  category : Option String
  limit : Option Int
  offset : Option Int
  dry_run : Option Bool
deriving DecidableEq, Repr

/-- Normalized catalog query (`Required<PhysioNetCatalogQuery>`). -/
structure CatalogQueryN where
  query : String
  category : String
  limit : Int
  offset : Int
  dry_run : Bool
deriving DecidableEq, Repr

/-- `PhysioNetClient.normalizeCatalogQuery`: JS `||` defaulting, so falsy
explicit values (empty string, `0`) are replaced by the defaults too. -/
def normalizeCatalogQuery (q : CatalogQuery) : CatalogQueryN where
  query := match q.query with
    | none => ""
    | some s => s
  category := match q.category with
    | none => "all"
    | some c => if c = "" then "all" else c
  limit := match q.limit with
    | none => 50
    | some v => if v = 0 then 50 else v
  offset := match q.offset with
    | none => 0
    | some v => if v = 0 then 0 else v
  dry_run := q.dry_run.getD false

/-- Raw fetch query (absent optional fields are `none`). -/
structure FetchQuery where
  dataset : String
  files : Option (List String)
  columns : Option (List String)
  limit : Option Int
  offset : Option Int
  dry_run : Option Bool
deriving DecidableEq, Repr

/-- Normalized fetch query (`Required<PhysioNetFetchQuery>`). -/
structure FetchQueryN where
  dataset : String
  files : List String
  columns : List String
  limit : Int
  offset : Int
  dry_run : Bool
deriving DecidableEq, Repr

/-- `PhysioNetClient.normalizeFetchQuery`: JS `||` defaulting of
`limit`/`offset` (an explicit `0` becomes the default), `?? false` for
`dry_run`. -/
def normalizeFetchQuery (q : FetchQuery) : FetchQueryN where
  dataset := q.dataset
  files := q.files.getD []
  columns := q.columns.getD []
  limit := match q.limit with
    | none => 10000
    | some v => if v = 0 then 10000 else v
  offset := match q.offset with
    | none => 0
    | some v => if v = 0 then 0 else v
  dry_run := q.dry_run.getD false

/-- `PhysioNetClient.filterDatasets`: allowlist filter first, then the
category filter, then the free-text filter over title, description and
tags. -/
def filterDatasets (datasets : List PDataset) (q : CatalogQueryN) : List PDataset :=
  let filtered := datasets.filter fun d => d.allowlisted
  let filtered :=
    if q.category ≠ "all" then filtered.filter fun d => d.category = q.category
    else filtered
  if q.query ≠ "" then
    let searchTerm := q.query.toLower
    filtered.filter fun d =>
      strIncludes d.title.toLower searchTerm ||
      strIncludes d.description.toLower searchTerm ||
      d.tags.any fun tag => strIncludes tag.toLower searchTerm
  else filtered

/-- `PhysioNetClient.getDatasetMetadata`: lookup in the sample catalog. -/
def getDatasetMetadata (datasetId : String) : Option PDataset :=
  sampleDatasets.find? fun d => d.id = datasetId

/-- `PhysioNetClient.projectColumns`: retain the requested columns that the
row actually has, in request order, dropping missing requests silently. -/
def projectColumns (row : Row) (columns : List String) : Row :=
  columns.filterMap fun c => (row.lookup c).map fun v => (c, v)

/-- The cache file name of `loadFileData`:
`file.name.replace(/\.[^.]+$/, '.csv')` (strip the final extension when
one exists, append `.csv`). -/
def csvCacheName (n : String) : String :=
  match n.splitOn "." with
  | [] => n
  | [_] => n
  | parts =>
    if parts.getLastD "" = "" then n
    else String.intercalate "." parts.dropLast ++ ".csv"

/-- The on-disk cache path of `loadFileData` relative to the cache
directory: dataset id joined with the csv-renamed file name.  Neither the
dataset version nor any query digest is part of the key. -/
def cacheFilePath (dataset : PDataset) (file : PFile) : String :=
  dataset.id ++ "/" ++ csvCacheName file.name

/-- `PhysioNetClient.loadFileData` with the filesystem abstracted: the
`fileRows` oracle yields the rows parsed from the (generated-on-miss)
cached CSV for a dataset id and file name; column projection is applied
per file when columns were requested. -/
def loadFileData (fileRows : String → String → RowSet) (dataset : PDataset)
    (file : PFile) (q : FetchQueryN) : RowSet :=
  let data := fileRows dataset.id file.name
  if q.columns.isEmpty = false then data.map fun row => projectColumns row q.columns
  else data

/-- `PhysioNetClient.fetchDatasetData`: select target files (requested
names, or all binary/csv/tsv data files), fail when none qualifies, and
concatenate the per-file row-sets. -/
def fetchDatasetData (fileRows : String → String → RowSet) (dataset : PDataset)
    (q : FetchQueryN) : Except String RowSet :=
  let targetFiles :=
    if q.files.isEmpty = false then dataset.files.filter fun f => q.files.contains f.name
    else dataset.files.filter fun f => f.format = "binary" || f.format = "csv" || f.format = "tsv"
  if targetFiles.isEmpty then .error "No suitable data files found"
  else .ok (targetFiles.flatMap fun f => loadFileData fileRows dataset f q)

/-- `PhysioNetClient.applyPagination` (the generic catalog version):
`items.slice(offset, offset + limit)`. -/
def applyPagination (items : List α) (limit offset : Int) : List α :=
  jsSlice items offset (offset + limit)

/-- `PhysioNetClient.applyDataPagination`:
`data.slice(query.offset, query.offset + query.limit)`. -/
def applyDataPagination (data : RowSet) (q : FetchQueryN) : RowSet :=
  jsSlice data q.offset (q.offset + q.limit)

/-- `PhysioNetClient.estimateDatasetCount`: dry-run catalog estimate over
the freshly generated sample catalog. -/
def estimateDatasetCount (q : CatalogQueryN) : Nat :=
  (filterDatasets sampleDatasets q).length

/-- `PhysioNetClient.estimateDatasetRows`: sum of `sample_count || 1000`
over the target files. -/
def estimateDatasetRows (dataset : PDataset) (q : FetchQueryN) : Nat :=
  let targetFiles :=
    if q.files.isEmpty = false then dataset.files.filter fun f => q.files.contains f.name
    else dataset.files.filter fun f => f.format = "binary" || f.format = "csv"
  (targetFiles.map fun f =>
    match f.sample_count with
    | some n => if n = 0 then 1000 else n
    | none => 1000).sum

/-- Provenance record of the PhysioNet adapter (the echoed
`request_params` object is elided: no claim reads it). -/
structure Provenance where
  source : String
  dataset : String
  version : String
  date : String
  license : String
  request_timestamp : String
  sha256_hash : Option String
deriving DecidableEq, Repr

/-- The `PhysioNetFetchResult` response shape. -/
structure FetchResult where
  data : Option RowSet
  estimated_rows : Option Nat
  actual_rows : Option Nat
  provenance : Provenance
  columns : List String
  warnings : Option (List String)
  errors : Option (List String)
deriving DecidableEq, Repr

/-- The `PhysioNetCatalogResult` response shape. -/
structure CatalogResult where
  datasets : Option (List PDataset)
  estimated_count : Option Nat
  actual_count : Option Nat
  provenance : Provenance
  errors : Option (List String)
  warnings : Option (List String)
deriving DecidableEq, Repr

/-- `PhysioNetClient.createFetchResult`: column list from the first row
(falling back to the requested columns), sha-256 over the serialized
row-set, dry-run/actual branching, empty-data warning. -/
def createFetchResult (data : RowSet) (totalRows : Nat) (q : FetchQueryN)
    (requestTime : String) (dataset : PDataset) : FetchResult where
  data := if q.dry_run then none else some data
  estimated_rows := if q.dry_run then some totalRows else none
  actual_rows := if q.dry_run then none else some data.length
  provenance :=
    { source := "PhysioNet"
      dataset := dataset.id ++ " - " ++ dataset.title
      version := dataset.version
      date := dataset.publication_date
      license := dataset.license
      request_timestamp := requestTime
      sha256_hash := some (sha256Hex (jsonRows data)) }
  columns := match data with
    | [] => q.columns
    | r :: _ => r.map Prod.fst
  warnings := if data.length = 0 then some ["No data found matching the specified criteria"] else none
  errors := none

/-- `PhysioNetClient.createFetchErrorResult`. -/
def createFetchErrorResult (requestTime : String) (error : String) : FetchResult where
  data := none
  estimated_rows := none
  actual_rows := none
  provenance :=
    { source := "PhysioNet"
      dataset := "N/A"
      version := "N/A"
      date := "N/A"
      license := "N/A"
      request_timestamp := requestTime
      sha256_hash := none }
  columns := []
  warnings := none
  errors := some [error]

/-- `PhysioNetClient.createCatalogResult`. -/
def createCatalogResult (datasets : List PDataset) (totalCount : Nat)
    (q : CatalogQueryN) (requestTime : String) : CatalogResult where
  datasets := if q.dry_run then none else some datasets
  estimated_count := if q.dry_run then some totalCount else none
  actual_count := if q.dry_run then none else some datasets.length
  provenance :=
    { source := "PhysioNet"
      dataset := "Catalog"
      version := "1.0.0"
      date := "N/A"
      license := "Various (see individual datasets)"
      request_timestamp := requestTime
      sha256_hash := none }
  errors := none
  warnings := none

/-- `PhysioNetClient.createCatalogErrorResult`. -/
def createCatalogErrorResult (requestTime : String) (error : String) : CatalogResult where
  datasets := none
  estimated_count := none
  actual_count := none
  provenance :=
    { source := "PhysioNet"
      dataset := "N/A"
      version := "N/A"
      date := "N/A"
      license := "N/A"
      request_timestamp := requestTime
      sha256_hash := none }
  errors := some [error]
  warnings := none

/-- `PhysioNetClient.fetch`: normalize, allowlist check, metadata lookup,
dry-run estimate or data load + pagination, assemble; thrown errors are
caught at the boundary.  The second component records whether the data
loading stage (`fetchDatasetData`, the fetch strategy) was ever invoked. -/
def physioFetch (fileRows : String → String → RowSet) (q : FetchQuery)
    (requestTime : String) : FetchResult × Bool :=
  let nq := normalizeFetchQuery q
  if physioAllowlist.contains nq.dataset = false then
    (createFetchErrorResult requestTime
      ("Dataset \x27" ++ nq.dataset ++ "\x27 is not in the allowlist"), false)
  else match getDatasetMetadata nq.dataset with
    | none =>
      (createFetchErrorResult requestTime
        ("Dataset \x27" ++ nq.dataset ++ "\x27 not found"), false)
    | some dataset =>
      if nq.dry_run then
        (createFetchResult [] (estimateDatasetRows dataset nq) nq requestTime dataset, false)
      else match fetchDatasetData fileRows dataset nq with
        | .error e => (createFetchErrorResult requestTime e, true)
        | .ok data =>
          (createFetchResult (applyDataPagination data nq) data.length nq requestTime dataset, true)

/-- `PhysioNetClient.catalog`: normalize, dry-run estimate or search +
pagination, assemble.  `catalogCache` is the 24-hour dataset cache file
(`some` when fresh); a miss regenerates the sample catalog. -/
def physioCatalog (catalogCache : Option (List PDataset)) (q : CatalogQuery)
    (requestTime : String) : CatalogResult :=
  let nq := normalizeCatalogQuery q
  if nq.dry_run then
    createCatalogResult [] (estimateDatasetCount nq) nq requestTime
  else
    let datasets := filterDatasets (catalogCache.getD sampleDatasets) nq
    let paginated := applyPagination datasets nq.limit nq.offset
    createCatalogResult paginated datasets.length nq requestTime

end PhysioNet

/-- Whether the errors array of a result is absent or empty. -/
def errsEmptyB : Option (List String) → Bool
  | none => true
  | some l => l.isEmpty

/-- Exactly one of: estimated count present (no errors), actual count
present (no errors), errors non-empty with no counts. -/
def countsOk (est act : Option Nat) (errs : Option (List String)) : Bool :=
  (est.isSome && act.isNone && errsEmptyB errs) ||
  (act.isSome && est.isNone && errsEmptyB errs) ||
  (!errsEmptyB errs && est.isNone && act.isNone)

/-- The Result invariant of the spec for a SEER result of a request whose
normalized dry-run flag is `dry`: the exactly-one-status invariant,
errors imply no row-set and no counts, dry-run yields no data and no
actual count, and a non-dry-run success yields no estimated count. -/
def seerResultOk (dry : Bool) (r : Seer.SeerResult) : Bool :=
  countsOk r.estimated_rows r.actual_rows r.errors &&
  (errsEmptyB r.errors || (r.data.isNone && r.estimated_rows.isNone && r.actual_rows.isNone)) &&
  (!dry || (r.data.isNone && r.actual_rows.isNone)) &&
  (dry || !errsEmptyB r.errors || r.estimated_rows.isNone)

/-- The same Result invariant for a PhysioNet fetch result. -/
def fetchResultOk (dry : Bool) (r : PhysioNet.FetchResult) : Bool :=
  countsOk r.estimated_rows r.actual_rows r.errors &&
  (errsEmptyB r.errors || (r.data.isNone && r.estimated_rows.isNone && r.actual_rows.isNone)) &&
  (!dry || (r.data.isNone && r.actual_rows.isNone)) &&
  (dry || !errsEmptyB r.errors || r.estimated_rows.isNone)

/-- The same Result invariant for a PhysioNet catalog result (the row-set
position is held by the `datasets` field). -/
def catalogResultOk (dry : Bool) (r : PhysioNet.CatalogResult) : Bool :=
  countsOk r.estimated_count r.actual_count r.errors &&
  (errsEmptyB r.errors || (r.datasets.isNone && r.estimated_count.isNone && r.actual_count.isNone)) &&
  (!dry || (r.datasets.isNone && r.actual_count.isNone)) &&
  (dry || !errsEmptyB r.errors || r.estimated_count.isNone)

lemma seerResultOk_createResult (data : RowSet) (total : Nat) (nq : Seer.SeerQueryN)
    (t : String) (ep : Seer.SeerEndpoint) :
    seerResultOk nq.dry_run (Seer.createResult data total nq t ep) = true := by
  cases hdry : nq.dry_run <;>
    simp [Seer.createResult, seerResultOk, countsOk, errsEmptyB, hdry]

lemma seerResultOk_createErrorResult (dry : Bool) (t e : String) :
    seerResultOk dry (Seer.createErrorResult t e) = true := by
  cases dry <;> simp [Seer.createErrorResult, seerResultOk, countsOk, errsEmptyB]

lemma fetchResultOk_createFetchResult (data : RowSet) (total : Nat)
    (nq : PhysioNet.FetchQueryN) (t : String) (ds : PhysioNet.PDataset) :
    fetchResultOk nq.dry_run (PhysioNet.createFetchResult data total nq t ds) = true := by
  cases hdry : nq.dry_run <;>
    simp [PhysioNet.createFetchResult, fetchResultOk, countsOk, errsEmptyB, hdry]

lemma fetchResultOk_createFetchErrorResult (dry : Bool) (t e : String) :
    fetchResultOk dry (PhysioNet.createFetchErrorResult t e) = true := by
  cases dry <;>
    simp [PhysioNet.createFetchErrorResult, fetchResultOk, countsOk, errsEmptyB]

lemma catalogResultOk_createCatalogResult (ds : List PhysioNet.PDataset) (total : Nat)
    (nq : PhysioNet.CatalogQueryN) (t : String) :
    catalogResultOk nq.dry_run (PhysioNet.createCatalogResult ds total nq t) = true := by
  cases hdry : nq.dry_run <;>
    simp [PhysioNet.createCatalogResult, catalogResultOk, countsOk, errsEmptyB, hdry]

/-- C1: every result of the pipelines (SEER query, PhysioNet fetch,
PhysioNet catalog) satisfies the Result status invariant: exactly one of
estimated-count-present, actual-count-present, errors-non-empty-with-no-
counts holds; a result with non-empty errors carries no row-set; a
dry-run request returns neither data nor an actual count; a non-dry-run
success returns no estimated count. -/
theorem claim1_result_status_invariant :
    (∀ (mock : Bool) (cache : Option RowSet) (tr : Seer.TransportOutcome)
       (s : Seer.RState) (q : Seer.SeerQuery) (t : String),
       seerResultOk (Seer.normalizeQuery q).dry_run
         (Seer.seerQuery mock cache tr s q t) = true) ∧
    (∀ (fileRows : String → String → RowSet) (q : PhysioNet.FetchQuery) (t : String),
       fetchResultOk (PhysioNet.normalizeFetchQuery q).dry_run
         (PhysioNet.physioFetch fileRows q t).1 = true) ∧
    (∀ (cc : Option (List PhysioNet.PDataset)) (q : PhysioNet.CatalogQuery) (t : String),
       catalogResultOk (PhysioNet.normalizeCatalogQuery q).dry_run
         (PhysioNet.physioCatalog cc q t) = true) := by
  refine ⟨?_, ?_, ?_⟩
  · intro mock cache tr s q t
    simp only [Seer.seerQuery]
    split
    · exact seerResultOk_createErrorResult _ _ _
    · split
      · exact seerResultOk_createErrorResult _ _ _
      · split
        · exact seerResultOk_createResult _ _ _ _ _
        · exact seerResultOk_createResult _ _ _ _ _
  · intro fileRows q t
    simp only [PhysioNet.physioFetch]
    split
    · exact fetchResultOk_createFetchErrorResult _ _ _
    · split
      · exact fetchResultOk_createFetchErrorResult _ _ _
      · split
        · exact fetchResultOk_createFetchResult _ _ _ _ _
        · split
          · exact fetchResultOk_createFetchErrorResult _ _ _
          · exact fetchResultOk_createFetchResult _ _ _ _ _
  · intro cc q t
    simp only [PhysioNet.physioCatalog]
    split
    · exact catalogResultOk_createCatalogResult _ _ _ _
    · exact catalogResultOk_createCatalogResult _ _ _ _

/-- C2: a fetch query whose dataset is not on the allowlist fails with the
not-allowlisted terminal error and the data-loading fetch strategy is
never invoked. -/
theorem claim2_allowlist_blocks_fetch
    (fileRows : String → String → RowSet) (q : PhysioNet.FetchQuery) (t : String)
    (h : PhysioNet.physioAllowlist.contains q.dataset = false) :
    (PhysioNet.physioFetch fileRows q t).2 = false ∧
    (PhysioNet.physioFetch fileRows q t).1.errors =
      some ["Dataset \x27" ++ q.dataset ++ "\x27 is not in the allowlist"] := by
  have hds : (PhysioNet.normalizeFetchQuery q).dataset = q.dataset := rfl
  simp only [PhysioNet.physioFetch, hds, h, if_pos rfl]
  exact ⟨rfl, rfl⟩

theorem claim2_allowlist_blocks_fetch_witness :
    PhysioNet.physioAllowlist.contains "unknown-id" = false ∧
    ((PhysioNet.physioFetch (fun _ _ => []) ⟨"unknown-id", none, none, none, none, none⟩ "t").2 = false ∧
     (PhysioNet.physioFetch (fun _ _ => []) ⟨"unknown-id", none, none, none, none, none⟩ "t").1.errors =
       some ["Dataset \x27" ++ "unknown-id" ++ "\x27 is not in the allowlist"]) :=
  ⟨by decide, claim2_allowlist_blocks_fetch (fun _ _ => []) ⟨"unknown-id", none, none, none, none, none⟩ "t" (by decide)⟩

/-- C9: an explicit limit of 0 is falsy under the `||` defaulting, so all
three normalizers replace it by the default limit (10000 for SEER query
and PhysioNet fetch, 50 for PhysioNet catalog) instead of keeping 0. -/
theorem claim9_zero_limit_defaults :
    ∀ (ep : String) (ps : Option (List (String × Seer.PValue)))
      (off : Option Int) (dr : Option Bool) (ds : String)
      (fs cs : Option (List String)) (cq cat : Option String),
    (Seer.normalizeQuery ⟨ep, ps, some 0, off, dr⟩).limit = 10000 ∧
    (PhysioNet.normalizeFetchQuery ⟨ds, fs, cs, some 0, off, dr⟩).limit = 10000 ∧
    (PhysioNet.normalizeCatalogQuery ⟨cq, cat, some 0, off, dr⟩).limit = 50 := by
  intro ep ps off dr ds fs cs cq cat
  refine ⟨?_, ?_, ?_⟩ <;>
    simp [Seer.normalizeQuery, PhysioNet.normalizeFetchQuery, PhysioNet.normalizeCatalogQuery]

/-- C4 counterexample: normalization does not clamp — a raw SEER query with
limit -5 and offset -3 normalizes to the same negative values, refuting
that every normalized query has non-negative limit and offset. -/
theorem claim4_no_clamping_cex :
    ¬(0 ≤ (Seer.normalizeQuery ⟨"incidence", some [("site", Seer.PValue.pstr "breast")],
            some (-5), some (-3), none⟩).limit ∧
      0 ≤ (Seer.normalizeQuery ⟨"incidence", some [("site", Seer.PValue.pstr "breast")],
            some (-5), some (-3), none⟩).offset) := by
  decide

/-- C4 amended: normalization only substitutes the default for an absent or
zero (falsy) limit/offset; any other supplied value — negative values
included — passes through unchanged, and no descriptor maximum is
enforced: the normalized limit exceeds every bound for some query. -/
theorem claim4_normalization_defaults_only :
    (∀ (q : Seer.SeerQuery) (v : Int), q.limit = some v → v ≠ 0 →
       (Seer.normalizeQuery q).limit = v) ∧
    (∀ (q : Seer.SeerQuery) (v : Int), q.offset = some v → v ≠ 0 →
       (Seer.normalizeQuery q).offset = v) ∧
    (∀ (q : PhysioNet.FetchQuery) (v : Int), q.limit = some v → v ≠ 0 →
       (PhysioNet.normalizeFetchQuery q).limit = v) ∧
    (∀ b : Int, ∃ q : Seer.SeerQuery, b < (Seer.normalizeQuery q).limit) := by
  refine ⟨?_, ?_, ?_, ?_⟩
  · intro q v h hv
    simp [Seer.normalizeQuery, h, hv]
  · intro q v h hv
    simp [Seer.normalizeQuery, h, hv]
  · intro q v h hv
    simp [PhysioNet.normalizeFetchQuery, h, hv]
  · intro b
    refine ⟨⟨"incidence", none, some ((b.natAbs : Int) + 1), none, none⟩, ?_⟩
    have hne : ((b.natAbs : Int) + 1) ≠ 0 := by omega
    simp only [Seer.normalizeQuery, if_neg hne]
    omega

theorem claim4_normalization_defaults_only_witness :
    (Seer.normalizeQuery ⟨"incidence", none, some (-5), none, none⟩).limit = -5 ∧
    (Seer.normalizeQuery ⟨"incidence", none, none, some (-3), none⟩).offset = -3 ∧
    (PhysioNet.normalizeFetchQuery ⟨"mitdb", none, none, some 123456, none, none⟩).limit = 123456 :=
  ⟨claim4_normalization_defaults_only.1 _ (-5) rfl (by decide),
   claim4_normalization_defaults_only.2.1 _ (-3) rfl (by decide),
   claim4_normalization_defaults_only.2.2.1 _ 123456 rfl (by decide)⟩

/-- The concrete normalized query used to refute determinism of the
synthetic fallback generator. -/
def mockCexQuery : Seer.SeerQueryN :=
  Seer.normalizeQuery ⟨"incidence", some [("site", Seer.PValue.pstr "breast")], some 1, none, none⟩

/-- C3 counterexample: the synthetic generator draws from the global
unseeded pseudo-random source (`Math.random()`), not from a query-digest
seed — two calls with the same normalized query but different ambient
random streams produce different row-sets. -/
theorem claim3_fallback_not_deterministic_cex :
    (Seer.generateMockData mockCexQuery ⟨fun _ => 0, 0⟩).1 ≠
    (Seer.generateMockData mockCexQuery ⟨fun _ => 1, 0⟩).1 := by
  decide

lemma genRows_length (q : Seer.SeerQueryN) :
    ∀ (n i : Nat) (s : Seer.RState), ((Seer.genRows q n i s).1).length = n := by
  intro n
  induction n with
  | zero => intro i s; simp [Seer.genRows]
  | succ n ih => intro i s; simp [Seer.genRows, ih]

lemma mkRecord_recId (q : Seer.SeerQueryN) (i : Nat) (s : Seer.RState) :
    ((Seer.mkRecord q i s).1).lookup "record_id" = some (Value.num (Int.ofNat i + 1)) := by
  simp [Seer.mkRecord, List.lookup]

lemma genRows_recIds (q : Seer.SeerQueryN) :
    ∀ (n i : Nat) (s : Seer.RState),
      ((Seer.genRows q n i s).1).map (fun r => r.lookup "record_id") =
        (List.range n).map (fun j => some (Value.num (Int.ofNat (i + j) + 1))) := by
  intro n
  induction n with
  | zero => intro i s; simp [Seer.genRows]
  | succ n ih =>
    intro i s
    rw [List.range_succ_eq_map]
    simp only [Seer.genRows, List.map_cons, List.map_map]
    refine congrArg₂ List.cons ?_ ?_
    · rw [mkRecord_recId]
      simp
    · rw [ih (i + 1)]
      apply List.map_congr_left
      intro j _
      simp only [Function.comp_apply, Nat.succ_eq_add_one]
      rw [show i + (j + 1) = i + 1 + j by omega]

/-- C3 amended: the generator is deterministic only in its query-driven
shape — for one normalized query and any two ambient random streams, the
two generated row-sets have the same length (min(limit, 1000)) and the
same record_id column; the remaining fields are drawn from the global
unseeded pseudo-random source and may differ between the two calls. -/
theorem claim3_fallback_shape_deterministic :
    ∀ (q : Seer.SeerQueryN) (s₁ s₂ : Seer.RState),
      ((Seer.generateMockData q s₁).1).length = ((Seer.generateMockData q s₂).1).length ∧
      ((Seer.generateMockData q s₁).1).map (fun r => r.lookup "record_id") =
        ((Seer.generateMockData q s₂).1).map (fun r => r.lookup "record_id") := by
  intro q s₁ s₂
  constructor
  · rw [Seer.generateMockData, Seer.generateMockData, genRows_length, genRows_length]
  · rw [Seer.generateMockData, Seer.generateMockData, genRows_recIds, genRows_recIds]

/-- The concrete dry-run query exhibiting a present content hash. -/
def dryRunHashQuery : Seer.SeerQuery :=
  ⟨"incidence", some [("site", Seer.PValue.pstr "breast")], none, none, some true⟩

/-- C5 counterexample: a dry-run SEER result (estimated count present, so
it is neither an error nor a non-dry-run result) still carries a
provenance sha-256 hash — `createResult` computes and attaches the hash
unconditionally, so it is not omitted for dry-run results. -/
theorem claim5_dryrun_hash_present_cex :
    (Seer.seerQuery true none (.failure "") ⟨fun _ => 0, 0⟩ dryRunHashQuery "t").estimated_rows.isSome = true ∧
    (Seer.seerQuery true none (.failure "") ⟨fun _ => 0, 0⟩ dryRunHashQuery "t").provenance.sha256_hash ≠ none := by
  constructor
  · decide
  · decide

/-- C5 amended: the provenance hash is omitted exactly on error results;
every non-error result (dry-run included) carries a sha-256 hash computed
over the serialization of the row-set the assembler was given — the
post-pagination row-set on success, the empty row-set on dry-run (which
is the attached `data` defaulted to empty). -/
theorem claim5_hash_over_serialized_rowset :
    (∀ (mock : Bool) (cache : Option RowSet) (tr : Seer.TransportOutcome)
       (s : Seer.RState) (q : Seer.SeerQuery) (t : String),
       ((Seer.seerQuery mock cache tr s q t).errors ≠ none →
          (Seer.seerQuery mock cache tr s q t).provenance.sha256_hash = none) ∧
       ((Seer.seerQuery mock cache tr s q t).errors = none →
          (Seer.seerQuery mock cache tr s q t).provenance.sha256_hash =
            some (sha256Hex (jsonRows ((Seer.seerQuery mock cache tr s q t).data.getD []))))) ∧
    (∀ (fileRows : String → String → RowSet) (q : PhysioNet.FetchQuery) (t : String),
       ((PhysioNet.physioFetch fileRows q t).1.errors ≠ none →
          (PhysioNet.physioFetch fileRows q t).1.provenance.sha256_hash = none) ∧
       ((PhysioNet.physioFetch fileRows q t).1.errors = none →
          (PhysioNet.physioFetch fileRows q t).1.provenance.sha256_hash =
            some (sha256Hex (jsonRows ((PhysioNet.physioFetch fileRows q t).1.data.getD []))))) := by
  constructor
  · intro mock cache tr s q t
    simp only [Seer.seerQuery]
    split
    · exact ⟨fun _ => rfl, fun h => Option.noConfusion h⟩
    · split
      · exact ⟨fun _ => rfl, fun h => Option.noConfusion h⟩
      · split
        · refine ⟨fun h => (h rfl).elim, fun _ => ?_⟩
          simp [Seer.createResult, *]
        · refine ⟨fun h => (h rfl).elim, fun _ => ?_⟩
          simp [Seer.createResult, *]
  · intro fileRows q t
    simp only [PhysioNet.physioFetch]
    split
    · exact ⟨fun _ => rfl, fun h => Option.noConfusion h⟩
    · split
      · exact ⟨fun _ => rfl, fun h => Option.noConfusion h⟩
      · split
        · refine ⟨fun h => (h rfl).elim, fun _ => ?_⟩
          simp [PhysioNet.createFetchResult, *]
        · split
          · exact ⟨fun _ => rfl, fun h => Option.noConfusion h⟩
          · refine ⟨fun h => (h rfl).elim, fun _ => ?_⟩
            simp [PhysioNet.createFetchResult, *]

theorem claim5_hash_over_serialized_rowset_witness :
    (Seer.seerQuery true none (.failure "") ⟨fun _ => 0, 0⟩
        ⟨"no-such-endpoint", none, none, none, none⟩ "t").provenance.sha256_hash = none :=
  (claim5_hash_over_serialized_rowset.1 true none (.failure "") ⟨fun _ => 0, 0⟩
      ⟨"no-such-endpoint", none, none, none, none⟩ "t").1 (by decide)

/-- C6: a SEER caller never observes a transport failure.  First, the
result of the pipeline either has no errors or carries exactly the
unknown-endpoint or missing-required-parameters terminal message (the
error taxonomy visible to callers; no transport message ever reaches the
errors array).  Second, the observable result is entirely independent of
the transport failure message: a failed live fetch falls back to the
synthetic generator, so the raw network exception is unobservable. -/
theorem claim6_transport_failures_recovered :
    (∀ (mock : Bool) (cache : Option RowSet) (tr : Seer.TransportOutcome)
       (s : Seer.RState) (q : Seer.SeerQuery) (t : String),
       (Seer.seerQuery mock cache tr s q t).errors = none ∨
       (Seer.seerQuery mock cache tr s q t).errors =
         some ["Unknown endpoint: " ++ (Seer.normalizeQuery q).endpoint] ∨
       (∃ ps : List String, ps ≠ [] ∧
         (Seer.seerQuery mock cache tr s q t).errors =
           some ["Missing required parameters: " ++ String.intercalate ", " ps])) ∧
    (∀ (mock : Bool) (cache : Option RowSet) (s : Seer.RState)
       (q : Seer.SeerQuery) (t : String) (m₁ m₂ : String),
       Seer.seerQuery mock cache (.failure m₁) s q t =
       Seer.seerQuery mock cache (.failure m₂) s q t) := by
  constructor
  · intro mock cache tr s q t
    simp only [Seer.seerQuery]
    split
    · exact Or.inr (Or.inl rfl)
    · split
      · rename_i hne
        refine Or.inr (Or.inr ⟨_, ?_, rfl⟩)
        intro hnil
        rw [hnil] at hne
        simp at hne
      · split
        · exact Or.inl rfl
        · exact Or.inl rfl
  · intro mock cache s q t m₁ m₂
    simp only [Seer.seerQuery, Seer.fetchData]

/-- The concrete normalized query used for the cache-digest theorems. -/
def digestQuery : Seer.SeerQueryN :=
  Seer.normalizeQuery ⟨"incidence", some [("site", Seer.PValue.pstr "breast")], none, none, none⟩

/-- C7 counterexample: the SEER cache digest is the md5 of the request URL
(endpoint, parameters and api key only); the dataset version string is
not an input of the digest, so changing the version leaves the digest
unchanged and does not invalidate prior cache entries. -/
theorem claim7_version_not_in_digest_cex :
    Seer.seerCacheKeyV digestQuery none Seer.seerVersion =
      Seer.seerCacheKeyV digestQuery none "December 2025" ∧
    Seer.seerVersion ≠ "December 2025" :=
  ⟨rfl, by decide⟩

/-- C7 amended: the digest is a stable hash of the request URL alone —
queries with equal URL serializations receive equal digests under any
api key, and the digest is invariant under any change of the client's
dataset version string (a version bump does not invalidate cache
entries); likewise the PhysioNet row cache path depends only on the
dataset id and file name, not on the dataset version. -/
theorem claim7_digest_ignores_version :
    (∀ (q q' : Seer.SeerQueryN) (k : Option String) (v v' : String),
       Seer.seerUrl q k = Seer.seerUrl q' k →
       Seer.seerCacheKeyV q k v = Seer.seerCacheKeyV q' k v') ∧
    (∀ (ds ds' : PhysioNet.PDataset) (f : PhysioNet.PFile),
       ds.id = ds'.id →
       PhysioNet.cacheFilePath ds f = PhysioNet.cacheFilePath ds' f) := by
  constructor
  · intro q q' k v v' h
    simp only [Seer.seerCacheKeyV, Seer.seerCacheKey, md5Hex, h]
  · intro ds ds' f h
    simp only [PhysioNet.cacheFilePath, h]

theorem claim7_digest_ignores_version_witness :
    Seer.seerCacheKeyV digestQuery none "November 2021" =
      Seer.seerCacheKeyV digestQuery none "v2" ∧
    PhysioNet.cacheFilePath
        { id := "mitdb", title := "MIT-BIH Arrhythmia Database", description := "",
          category := "ecg", publication_date := "2001-06-05", version := "1.0.0",
          license := "ODC-By v1.0", files := [], tags := [], allowlisted := true }
        { name := "100.dat", format := "binary", sample_count := some 650000 } =
      PhysioNet.cacheFilePath
        { id := "mitdb", title := "MIT-BIH Arrhythmia Database", description := "",
          category := "ecg", publication_date := "2001-06-05", version := "2.0.0",
          license := "ODC-By v1.0", files := [], tags := [], allowlisted := true }
        { name := "100.dat", format := "binary", sample_count := some 650000 } :=
  ⟨claim7_digest_ignores_version.1 digestQuery digestQuery none "November 2021" "v2" rfl,
   claim7_digest_ignores_version.2 _ _ _ rfl⟩

lemma jsSlice_nonneg (l : List α) (off lim : Int) (hoff : 0 ≤ off) (hlim : 0 ≤ lim) :
    jsSlice l off (off + lim) = (l.drop off.toNat).take lim.toNat := by
  have h1 : ¬ off < 0 := by omega
  have h2 : ¬ off + lim < 0 := by omega
  simp only [jsSlice, h1, h2, if_false]
  have e1 : (min (off + lim) (l.length : Int)).toNat = min (off.toNat + lim.toNat) l.length := by
    omega
  have e2 : (min off (l.length : Int)).toNat = min off.toNat l.length := by
    omega
  rw [e1, e2]
  rcases le_or_lt (off.toNat + lim.toNat) l.length with hab | hab
  · rw [min_eq_left hab, min_eq_left (by omega), List.drop_take]
    congr 1
    omega
  · rw [min_eq_right (le_of_lt hab), List.take_length]
    rcases le_or_lt off.toNat l.length with ha | ha
    · rw [min_eq_left ha, List.take_of_length_le (by rw [List.length_drop]; omega)]
    · rw [min_eq_right (le_of_lt ha), List.drop_length,
        List.drop_eq_nil_of_le (by omega), List.take_nil]

lemma pagesConcat (L : Nat) :
    ∀ (n : Nat) (l : List α), 0 < L → l.length ≤ n * L →
      (List.range n).flatMap (fun i => (l.drop (i * L)).take L) = l := by
  intro n
  induction n with
  | zero =>
    intro l _ h
    have : l = [] := List.eq_nil_of_length_eq_zero (by omega)
    subst this
    rfl
  | succ n ih =>
    intro l hL h
    rw [Nat.succ_mul] at h
    rw [List.range_succ_eq_map, List.flatMap_cons, List.flatMap_map]
    have hrw : (fun a : Nat => (l.drop (a.succ * L)).take L) =
        fun a : Nat => (((l.drop L).drop (a * L)).take L) := by
      funext a
      rw [List.drop_drop]
      congr 2
      rw [Nat.succ_mul]
      omega
    rw [hrw, ih (l.drop L) hL (by rw [List.length_drop]; omega)]
    simp only [Nat.zero_mul, List.drop_zero]
    exact List.take_append_drop L l

/-- C8: for non-negative offset and limit, both paginators return exactly
the slice `R[offset : offset + limit]` (truncated, never an error), and
concatenating consecutive pages of a fixed positive size `L` at offsets
`0, L, 2L, ...` reconstructs the row-set exactly, with no gaps and no
duplicates. -/
theorem claim8_pagination_slice :
    (∀ (R : RowSet) (q : Seer.SeerQueryN), 0 ≤ q.offset → 0 ≤ q.limit →
       Seer.applyPagination R q = (R.drop q.offset.toNat).take q.limit.toNat) ∧
    (∀ (R : RowSet) (q : PhysioNet.FetchQueryN), 0 ≤ q.offset → 0 ≤ q.limit →
       PhysioNet.applyDataPagination R q = (R.drop q.offset.toNat).take q.limit.toNat) ∧
    (∀ (R : RowSet) (L n : Nat), 0 < L → R.length ≤ n * L →
       (List.range n).flatMap
         (fun i => PhysioNet.applyPagination R (L : Int) ((L : Int) * (i : Int))) = R) := by
  refine ⟨?_, ?_, ?_⟩
  · intro R q hoff hlim
    exact jsSlice_nonneg R q.offset q.limit hoff hlim
  · intro R q hoff hlim
    exact jsSlice_nonneg R q.offset q.limit hoff hlim
  · intro R L n hL hlen
    have hfun : (fun i : Nat => PhysioNet.applyPagination R (L : Int) ((L : Int) * (i : Int))) =
        fun i : Nat => (R.drop (i * L)).take L := by
      funext i
      unfold PhysioNet.applyPagination
      rw [jsSlice_nonneg R ((L : Int) * (i : Int)) (L : Int) (by positivity) (by positivity)]
      have e1 : ((L : Int) * (i : Int)).toNat = i * L := by
        rw [← Nat.cast_mul, Int.toNat_natCast, Nat.mul_comm]
      have e2 : ((L : Int)).toNat = L := Int.toNat_natCast L
      rw [e1, e2]
    rw [hfun]
    exact pagesConcat L n R hL hlen

/-- The row-set used to witness the pagination laws. -/
def pageWitnessRows : RowSet :=
  [[("a", Value.num 1)], [("a", Value.num 2)], [("a", Value.num 3)]]

theorem claim8_pagination_slice_witness :
    Seer.applyPagination pageWitnessRows ⟨"incidence", [], 2, 1, false⟩ =
      (pageWitnessRows.drop 1).take 2 ∧
    (List.range 2).flatMap
      (fun i => PhysioNet.applyPagination pageWitnessRows ((2 : Nat) : Int) (((2 : Nat) : Int) * (i : Int))) =
      pageWitnessRows :=
  ⟨claim8_pagination_slice.1 pageWitnessRows ⟨"incidence", [], 2, 1, false⟩ (by decide) (by decide),
   claim8_pagination_slice.2.2 pageWitnessRows 2 2 (by decide) (by decide)⟩

lemma mem_filterDatasets_allowlisted (ds : List PhysioNet.PDataset)
    (q : PhysioNet.CatalogQueryN) (d : PhysioNet.PDataset)
    (hd : d ∈ PhysioNet.filterDatasets ds q) : d.allowlisted = true := by
  simp only [PhysioNet.filterDatasets] at hd
  split at hd <;> split at hd <;> simp only [List.mem_filter] at hd <;> tauto

lemma filterDatasets_length_le (ds : List PhysioNet.PDataset) (q : PhysioNet.CatalogQueryN) :
    (PhysioNet.filterDatasets ds q).length ≤ (ds.filter fun d => d.allowlisted).length := by
  simp only [PhysioNet.filterDatasets]
  split <;> split
  · exact le_trans (List.length_filter_le _ _) (List.length_filter_le _ _)
  · exact List.length_filter_le _ _
  · exact List.length_filter_le _ _
  · exact le_refl _

/-- C10: the catalog filter removes non-allowlisted descriptors before any
category or text filtering, regardless of the query — every descriptor in
its output is allowlisted, pre-restricting the input to its allowlisted
part changes nothing, and the dry-run estimate counts at most the
allowlisted sample datasets. -/
theorem claim10_catalog_allowlist_filter :
    ∀ (ds : List PhysioNet.PDataset) (q : PhysioNet.CatalogQueryN),
      ((PhysioNet.filterDatasets ds q).all fun d => d.allowlisted) = true ∧
      PhysioNet.filterDatasets ds q =
        PhysioNet.filterDatasets (ds.filter fun d => d.allowlisted) q ∧
      PhysioNet.estimateDatasetCount q ≤
        (PhysioNet.sampleDatasets.filter fun d => d.allowlisted).length := by
  intro ds q
  refine ⟨?_, ?_, ?_⟩
  · rw [List.all_eq_true]
    intro d hd
    exact mem_filterDatasets_allowlisted ds q d hd
  · have hidem : ((ds.filter fun d => d.allowlisted).filter fun d => d.allowlisted) =
        ds.filter fun d => d.allowlisted :=
      List.filter_eq_self.mpr fun a ha => (List.mem_filter.mp ha).2
    simp only [PhysioNet.filterDatasets, hidem]
  · exact filterDatasets_length_le PhysioNet.sampleDatasets q
